import Mathlib

set_option maxRecDepth 40000

/-!
Shallow embedding of `src/roles/infoscreen/templates/infoscreen.py`.

The program is a fixed-rate control loop over a single mutable record
(`AppState`). Each tick runs `handle_input` (button classification),
`update_data` (screen cycling and cache refresh) and `draw_interface`
(rendering plus inactivity-timer decrement), then pushes the composed
frame to the display.

Hardware and OS collaborators are modelled as inputs and outputs of the
pure step functions: the button sample is a `Bool` argument, the stat
providers are modelled by the values they return this tick, subprocess
calls that may raise are modelled with `Except`, the frame pushed to the
display is the `Frame` component of the result, and `exit(0)` is an
`exited` flag (a tick that exits produces no successor state).

Python integers are unbounded, so every counter is an `Int`.
-/

namespace InfoscreenModel

/-- `SCREEN_TIMEOUT_TICKS = int(15.0 / LOOP_SPEED)` with `LOOP_SPEED = 0.1`;
the float division is exact enough that the value is 150. -/
def SCREEN_TIMEOUT_TICKS : Int := 150

/-- `REBOOT_HOLD_TICKS = int(3.0 / LOOP_SPEED)` = 30. -/
def REBOOT_HOLD_TICKS : Int := 30

/-- `SHUTDOWN_HOLD_TICKS = int(6.0 / LOOP_SPEED)` = 60. -/
def SHUTDOWN_HOLD_TICKS : Int := 60

/-- `STATS_UPDATE_TICKS = int(0.5 / LOOP_SPEED)` = 5. -/
def STATS_UPDATE_TICKS : Int := 5

/-- `INFO_CYCLE_TICKS = int(2.0 / LOOP_SPEED)` = 20. -/
def INFO_CYCLE_TICKS : Int := 20

/-- Python `class MenuState(Enum)`. -/
inductive MenuState where
  | INFO
  | REBOOT_WAIT
  | SHUTDOWN_WAIT
deriving DecidableEq

/-- Python `class InfoScreen(Enum)`. -/
inductive InfoScreen where
  | NETWORK
  | PERFORMANCE
deriving DecidableEq

/-- Python `@dataclass class AppState`, with the same field defaults. -/
structure AppState where
  mode : MenuState := MenuState.INFO
  screen : InfoScreen := InfoScreen.NETWORK
  display_timer : Int := SCREEN_TIMEOUT_TICKS
  btn_hold_ticks : Int := 0
  stats_tick : Int := STATS_UPDATE_TICKS
  cycle_tick : Int := 0
  cache_net : String × String := ("Loading...", "...")
  cache_perf : Float × Float × Float := (0, 0, 0)

/-- The state constructed by `AppState()` in `main`. -/
def initState : AppState := {}

/-- The system commands the release handler can fire (`sudo reboot now`
and `sudo shutdown now` via `run_sys_command`). -/
inductive SysAction where
  | reboot
  | shutdown
deriving DecidableEq

/-- `get_network_info`: the `hostname` lookup is executed outside any
`try`, so its failure propagates; only the `hostname -I` lookup sits in a
`try`/`except` that substitutes the string `"No IP"` for the ip
component. Each subprocess call is modelled by the `Except` it produces
(`Except.error` when `check_output` raises). -/
def get_network_info (hostRes ipRes : Except String String) :
    Except String (String × String) :=
  match hostRes with
  | Except.error e => Except.error e
  | Except.ok host =>
    match ipRes with
    | Except.ok ip => Except.ok (host, ip)
    | Except.error _ => Except.ok (host, "No IP")

/-- Result of one `handle_input` call: the state it leaves behind, the
system action it fired (at most one per call), and whether it reached
`exit(0)` (in which case the trailing reset lines never ran). -/
structure InputResult where
  state : AppState
  action : Option SysAction
  exited : Bool

/-- `handle_input`: pressed ticks wake the display, accumulate
`btn_hold_ticks` and recompute `mode` from the two hold thresholds
(shutdown checked first); a release with `btn_hold_ticks > 0` fires the
pending action and exits, or resets to the INFO/NETWORK state. -/
def handle_input (is_pressed : Bool) (s : AppState) : InputResult :=
  if is_pressed then
    let s1 : AppState :=
      { s with display_timer := SCREEN_TIMEOUT_TICKS
               btn_hold_ticks := s.btn_hold_ticks + 1 }
    let s2 : AppState :=
      if s1.btn_hold_ticks ≥ SHUTDOWN_HOLD_TICKS then
        { s1 with mode := MenuState.SHUTDOWN_WAIT }
      else if s1.btn_hold_ticks ≥ REBOOT_HOLD_TICKS then
        { s1 with mode := MenuState.REBOOT_WAIT }
      else s1
    ⟨s2, none, false⟩
  else
    if s.btn_hold_ticks > 0 then
      if s.mode = MenuState.REBOOT_WAIT then
        ⟨s, some SysAction.reboot, true⟩
      else if s.mode = MenuState.SHUTDOWN_WAIT then
        ⟨s, some SysAction.shutdown, true⟩
      else
        ⟨{ s with mode := MenuState.INFO
                  screen := InfoScreen.NETWORK
                  cycle_tick := 0
                  btn_hold_ticks := 0 }, none, false⟩
    else
      ⟨s, none, false⟩

/-- `update_data`, with the values returned this tick by `get_network_info`
and `get_performance_info` passed in as `net` and `perf`. The early
return guards on `display_timer <= 0 or mode != INFO`; then the cycle
check runs (toggling the screen sets `stats_tick` to the trigger value),
and then the stats check runs on the state the cycle check produced. -/
def update_data (net : String × String) (perf : Float × Float × Float)
    (s : AppState) : AppState :=
  if s.display_timer ≤ 0 ∨ s.mode ≠ MenuState.INFO then s
  else
    let s1 : AppState :=
      if s.cycle_tick ≥ INFO_CYCLE_TICKS then
        { s with screen := if s.screen = InfoScreen.NETWORK then
                             InfoScreen.PERFORMANCE
                           else InfoScreen.NETWORK
                 stats_tick := STATS_UPDATE_TICKS
                 cycle_tick := 0 }
      else { s with cycle_tick := s.cycle_tick + 1 }
    if s1.stats_tick ≥ STATS_UPDATE_TICKS then
      if s1.screen = InfoScreen.NETWORK then
        { s1 with cache_net := net, stats_tick := 0 }
      else
        { s1 with cache_perf := perf, stats_tick := 0 }
    else { s1 with stats_tick := s1.stats_tick + 1 }

/-- What `draw_interface` leaves in the frame buffer before pushing it:
nothing (screensaver), one of the two info screens rendered from the
caches, or a menu overlay. -/
inductive Frame where
  | blank
  | network (host ip : String)
  | performance (cpu mem disk : Float)
  | overlay (text : String)

/-- `draw_interface`: compose the frame for the current state, decrement
`display_timer` exactly when it was positive at entry, and return the
frame that is pushed to the display (pushed unconditionally, blank
included). -/
def draw_interface (s : AppState) : AppState × Frame :=
  if s.display_timer > 0 then
    let f : Frame :=
      match s.mode with
      | MenuState.INFO =>
        match s.screen with
        | InfoScreen.NETWORK => Frame.network s.cache_net.1 s.cache_net.2
        | InfoScreen.PERFORMANCE =>
          Frame.performance s.cache_perf.1 s.cache_perf.2.1 s.cache_perf.2.2
      | MenuState.REBOOT_WAIT => Frame.overlay "REBOOT"
      | MenuState.SHUTDOWN_WAIT => Frame.overlay "SHUTDOWN"
    ({ s with display_timer := s.display_timer - 1 }, f)
  else (s, Frame.blank)

/-- The external samples consumed by one loop iteration: the button
level and the values the stat providers would return if called. -/
structure TickInput where
  pressed : Bool
  net : String × String
  perf : Float × Float × Float

/-- Result of one loop iteration. -/
structure TickResult where
  state : AppState
  action : Option SysAction
  frame : Frame
  exited : Bool

/-- One iteration of the `while True` loop:
`handle_input` then, unless it exited, `update_data` then
`draw_interface`. A tick that exits pushes the instant overlay drawn by
the release handler and produces no looped successor. -/
def tick (inp : TickInput) (s : AppState) : TickResult :=
  let r := handle_input inp.pressed s
  if r.exited then
    { state := r.state
      action := r.action
      frame := Frame.overlay (match r.action with
        | some SysAction.reboot => "Rebooting..."
        | some SysAction.shutdown => "Shutting Down..."
        | none => "")
      exited := true }
  else
    let s2 := update_data inp.net inp.perf r.state
    { state := (draw_interface s2).1
      action := none
      frame := (draw_interface s2).2
      exited := false }

/-- The state after `n` loop iterations from `s`, feeding tick `k` the
external samples `inputs k`. -/
def run (inputs : Nat → TickInput) (s : AppState) : Nat → AppState
  | 0 => s
  | n + 1 => (tick (inputs n) (run inputs s n)).state

/-- States the loop can be in at the top of an iteration: the initial
state, and any state produced by a tick that did not exit the process. -/
inductive Reachable : AppState → Prop where
  | init : Reachable initState
  | step (s : AppState) (inp : TickInput) : Reachable s →
      (tick inp s).exited = false → Reachable (tick inp s).state

/-- Bounds every looped state satisfies: the timer never goes negative,
and each cadence counter stays between zero and its trigger constant. -/
def Inv (s : AppState) : Prop :=
  0 ≤ s.display_timer ∧
  0 ≤ s.cycle_tick ∧ s.cycle_tick ≤ INFO_CYCLE_TICKS ∧
  0 ≤ s.stats_tick ∧ s.stats_tick ≤ STATS_UPDATE_TICKS

/-- A sample with the button up and fixed provider values, for concrete
traces. -/
def idleSample : TickInput := ⟨false, ("host", "1.2.3.4"), (3.5, 42.0, 77.0)⟩

/-- An input stream that never presses the button. -/
def idleInputs : Nat → TickInput := fun _ => idleSample

/-- A sample with the button down. -/
def pressSample : TickInput := ⟨true, ("host", "1.2.3.4"), (3.5, 42.0, 77.0)⟩

/-- An input stream that holds the button down forever. -/
def pressInputs : Nat → TickInput := fun _ => pressSample

/-- A state sitting exactly at the cycle boundary (the Data Refresher
will toggle on the next running tick), with the stats counter far from
its own trigger. -/
def toggleState : AppState := { cycle_tick := INFO_CYCLE_TICKS, stats_tick := 0 }

/-- A state in which a reboot hold is waiting for its release. -/
def pendingRebootState : AppState :=
  { mode := MenuState.REBOOT_WAIT, btn_hold_ticks := 1 }

/-- A state in which a shutdown hold is waiting for its release. -/
def pendingShutdownState : AppState :=
  { mode := MenuState.SHUTDOWN_WAIT, btn_hold_ticks := 1 }

/-- A short tap about to be released: a few held ticks, below every
threshold, with the refresher mid-cycle on the performance screen. -/
def tapState : AppState :=
  { screen := InfoScreen.PERFORMANCE, btn_hold_ticks := 3, cycle_tick := 7 }

/-- A state in a hold menu, where the Data Refresher must freeze. -/
def frozenState : AppState := { mode := MenuState.SHUTDOWN_WAIT }

/-! ### Basic facts about the three phases -/

/-- A sample with the button up and no hold in progress leaves everything
untouched. -/
theorem handle_input_idle (s : AppState) (h : s.btn_hold_ticks = 0) :
    handle_input false s = ⟨s, none, false⟩ := by
  simp [handle_input, h]

/-- What one pressed sample does: wakes the display, bumps the hold
counter, recomputes the mode from the thresholds, touches nothing else
and never exits. -/
theorem handle_input_pressed (s : AppState) :
    handle_input true s =
      ⟨{ s with display_timer := SCREEN_TIMEOUT_TICKS
                btn_hold_ticks := s.btn_hold_ticks + 1
                mode := if s.btn_hold_ticks + 1 ≥ SHUTDOWN_HOLD_TICKS then
                          MenuState.SHUTDOWN_WAIT
                        else if s.btn_hold_ticks + 1 ≥ REBOOT_HOLD_TICKS then
                          MenuState.REBOOT_WAIT
                        else s.mode }, none, false⟩ := by
  by_cases hA : s.btn_hold_ticks + 1 ≥ SHUTDOWN_HOLD_TICKS
  · simp [handle_input, hA]
  · by_cases hB : s.btn_hold_ticks + 1 ≥ REBOOT_HOLD_TICKS
    · simp [handle_input, hA, hB]
    · simp [handle_input, hA, hB]

/-- `update_data` never changes the mode. -/
theorem update_data_mode (net : String × String)
    (perf : Float × Float × Float) (s : AppState) :
    (update_data net perf s).mode = s.mode := by
  simp only [update_data]
  split
  · rfl
  · split <;> split <;> first | rfl | (split <;> rfl)

/-- `update_data` never changes the hold counter. -/
theorem update_data_hold (net : String × String)
    (perf : Float × Float × Float) (s : AppState) :
    (update_data net perf s).btn_hold_ticks = s.btn_hold_ticks := by
  simp only [update_data]
  split
  · rfl
  · split <;> split <;> first | rfl | (split <;> rfl)

/-- `update_data` never changes the display timer. -/
theorem update_data_timer (net : String × String)
    (perf : Float × Float × Float) (s : AppState) :
    (update_data net perf s).display_timer = s.display_timer := by
  simp only [update_data]
  split
  · rfl
  · split <;> split <;> first | rfl | (split <;> rfl)

/-- The early return of `update_data`: asleep or in a hold menu, the
whole state is left as it was. -/
theorem update_data_frozen (net : String × String)
    (perf : Float × Float × Float) (s : AppState)
    (h : s.display_timer ≤ 0 ∨ s.mode ≠ MenuState.INFO) :
    update_data net perf s = s := by
  simp only [update_data]
  exact if_pos h

/-- A running `update_data` tick below the cycle boundary: the screen
stays, the cycle counter advances by one. -/
theorem update_data_no_toggle (net : String × String)
    (perf : Float × Float × Float) (s : AppState)
    (ht : 0 < s.display_timer) (hm : s.mode = MenuState.INFO)
    (hc : s.cycle_tick < INFO_CYCLE_TICKS) :
    (update_data net perf s).screen = s.screen ∧
    (update_data net perf s).cycle_tick = s.cycle_tick + 1 := by
  have hg : ¬ (s.display_timer ≤ 0 ∨ s.mode ≠ MenuState.INFO) := by
    simp [hm]; omega
  have hc' : ¬ s.cycle_tick ≥ INFO_CYCLE_TICKS := by omega
  simp only [update_data, if_neg hg, if_neg hc']
  split
  · split <;> exact ⟨rfl, rfl⟩
  · exact ⟨rfl, rfl⟩

/-- A running `update_data` tick at the cycle boundary: the screen flips,
the cycle counter resets, and — because the toggle wrote the trigger
value into `stats_tick` — the stats branch fires in the same call,
refreshing the cache of the newly active screen and ending the tick with
`stats_tick = 0`. -/
theorem update_data_toggle (net : String × String)
    (perf : Float × Float × Float) (s : AppState)
    (ht : 0 < s.display_timer) (hm : s.mode = MenuState.INFO)
    (hc : INFO_CYCLE_TICKS ≤ s.cycle_tick) :
    (update_data net perf s).screen =
      (if s.screen = InfoScreen.NETWORK then InfoScreen.PERFORMANCE
       else InfoScreen.NETWORK) ∧
    (update_data net perf s).cycle_tick = 0 ∧
    (update_data net perf s).stats_tick = 0 ∧
    (s.screen = InfoScreen.NETWORK →
      (update_data net perf s).cache_perf = perf ∧
      (update_data net perf s).cache_net = s.cache_net) ∧
    (s.screen = InfoScreen.PERFORMANCE →
      (update_data net perf s).cache_net = net ∧
      (update_data net perf s).cache_perf = s.cache_perf) := by
  have hg : ¬ (s.display_timer ≤ 0 ∨ s.mode ≠ MenuState.INFO) := by
    simp [hm]; omega
  have hc' : s.cycle_tick ≥ INFO_CYCLE_TICKS := hc
  simp only [update_data, if_neg hg, if_pos hc']
  cases hs : s.screen <;>
    simp [STATS_UPDATE_TICKS, hs]

/-- `draw_interface` changes no field other than the display timer. -/
theorem draw_interface_fields (s : AppState) :
    (draw_interface s).1.mode = s.mode ∧
    (draw_interface s).1.screen = s.screen ∧
    (draw_interface s).1.btn_hold_ticks = s.btn_hold_ticks ∧
    (draw_interface s).1.cycle_tick = s.cycle_tick ∧
    (draw_interface s).1.stats_tick = s.stats_tick ∧
    (draw_interface s).1.cache_net = s.cache_net ∧
    (draw_interface s).1.cache_perf = s.cache_perf := by
  simp only [draw_interface]
  split <;> simp

/-- The timer rule of `draw_interface`: decremented by exactly one when
it was positive at entry, untouched otherwise. -/
theorem draw_interface_timer (s : AppState) :
    (draw_interface s).1.display_timer =
      if 0 < s.display_timer then s.display_timer - 1
      else s.display_timer := by
  simp only [draw_interface]
  split <;> simp_all

/-- The frame pushed by `draw_interface` is the blank screensaver frame
exactly when the timer had already run out. -/
theorem draw_interface_blank (s : AppState) :
    (draw_interface s).2 = Frame.blank ↔ s.display_timer ≤ 0 := by
  simp only [draw_interface]
  split
  · constructor
    · intro h
      exfalso
      cases hm : s.mode <;> cases hs : s.screen <;> simp_all
    · omega
  · simp; omega

/-- A tick exits exactly when its `handle_input` phase exits. -/
theorem tick_exited (inp : TickInput) (s : AppState) :
    (tick inp s).exited = (handle_input inp.pressed s).exited := by
  simp only [tick]
  split <;> simp_all

/-- The state after a non-exiting tick is the three phases composed. -/
theorem tick_state (inp : TickInput) (s : AppState)
    (h : (handle_input inp.pressed s).exited = false) :
    (tick inp s).state =
      (draw_interface
        (update_data inp.net inp.perf (handle_input inp.pressed s).state)).1 := by
  simp only [tick, h]
  simp

/-! ### The loop invariant -/

theorem initState_inv : Inv initState := by
  refine ⟨?_, ?_, ?_, ?_, ?_⟩ <;> decide

theorem handle_input_inv (p : Bool) (s : AppState) (h : Inv s) :
    Inv (handle_input p s).state := by
  obtain ⟨h1, h2, h3, h4, h5⟩ := h
  simp only [handle_input, Inv, SCREEN_TIMEOUT_TICKS] at *
  split
  · split
    · simp; omega
    · split <;> simp <;> omega
  · split
    · split
      · exact ⟨h1, h2, h3, h4, h5⟩
      · split
        · exact ⟨h1, h2, h3, h4, h5⟩
        · simp; omega
    · exact ⟨h1, h2, h3, h4, h5⟩

theorem update_data_inv (net : String × String)
    (perf : Float × Float × Float) (s : AppState) (h : Inv s) :
    Inv (update_data net perf s) := by
  obtain ⟨h1, h2, h3, h4, h5⟩ := h
  simp only [update_data, Inv, INFO_CYCLE_TICKS, STATS_UPDATE_TICKS] at *
  split
  · exact ⟨h1, h2, h3, h4, h5⟩
  · split
    all_goals split
    all_goals try split
    all_goals simp_all
    all_goals omega

theorem draw_interface_inv (s : AppState) (h : Inv s) :
    Inv (draw_interface s).1 := by
  obtain ⟨h1, h2, h3, h4, h5⟩ := h
  simp only [draw_interface, Inv] at *
  split
  · simp; omega
  · exact ⟨h1, h2, h3, h4, h5⟩

theorem tick_inv (inp : TickInput) (s : AppState) (h : Inv s)
    (hx : (tick inp s).exited = false) : Inv (tick inp s).state := by
  rw [tick_exited] at hx
  rw [tick_state inp s hx]
  exact draw_interface_inv _ (update_data_inv _ _ _ (handle_input_inv _ _ h))

/-- Every reachable state satisfies the loop invariant. -/
theorem reachable_inv (s : AppState) (h : Reachable s) : Inv s := by
  induction h with
  | init => exact initState_inv
  | step s inp _ hx ih => exact tick_inv inp s ih hx

theorem draw_mode (s : AppState) : (draw_interface s).1.mode = s.mode :=
  (draw_interface_fields s).1

theorem draw_screen (s : AppState) : (draw_interface s).1.screen = s.screen :=
  (draw_interface_fields s).2.1

theorem draw_hold (s : AppState) :
    (draw_interface s).1.btn_hold_ticks = s.btn_hold_ticks :=
  (draw_interface_fields s).2.2.1

theorem draw_cycle (s : AppState) :
    (draw_interface s).1.cycle_tick = s.cycle_tick :=
  (draw_interface_fields s).2.2.2.1

/-! ### Runs with the button continuously up -/

/-- Tracing an idle stretch of the loop from a state with the cycle
counter freshly reset: for the first `INFO_CYCLE_TICKS` ticks no toggle
happens, the cycle counter counts the ticks, and the display timer drains
one per tick. -/
theorem idle_phase (inputs : Nat → TickInput)
    (hp : ∀ n, (inputs n).pressed = false) (s : AppState)
    (hm : s.mode = MenuState.INFO) (hh : s.btn_hold_ticks = 0)
    (hc : s.cycle_tick = 0) (ht : INFO_CYCLE_TICKS + 1 ≤ s.display_timer) :
    ∀ j : Nat, (j : Int) ≤ INFO_CYCLE_TICKS →
      (run inputs s j).mode = MenuState.INFO ∧
      (run inputs s j).btn_hold_ticks = 0 ∧
      (run inputs s j).screen = s.screen ∧
      (run inputs s j).cycle_tick = (j : Int) ∧
      (run inputs s j).display_timer = s.display_timer - (j : Int) := by
  intro j
  induction j with
  | zero =>
    intro _
    refine ⟨hm, hh, rfl, ?_, ?_⟩
    · simpa [run] using hc
    · simp [run]
  | succ j ih =>
    intro hj
    have hjlt : (j : Int) < INFO_CYCLE_TICKS := by push_cast at hj; omega
    obtain ⟨Pm, Ph, Ps, Pc, Pt⟩ := ih (le_of_lt hjlt)
    have hex : (handle_input (inputs j).pressed (run inputs s j)).exited
        = false := by
      rw [hp j, handle_input_idle _ Ph]
    have hrun : run inputs s (j + 1) =
        (tick (inputs j) (run inputs s j)).state := rfl
    rw [hrun, tick_state _ _ hex, hp j, handle_input_idle _ Ph]
    have htpos : 0 < (run inputs s j).display_timer := by
      rw [Pt]; simp only [INFO_CYCLE_TICKS] at ht hjlt; omega
    have hclt : (run inputs s j).cycle_tick < INFO_CYCLE_TICKS := by
      rw [Pc]; exact hjlt
    obtain ⟨Us, Uc⟩ :=
      update_data_no_toggle (inputs j).net (inputs j).perf _ htpos Pm hclt
    refine ⟨?_, ?_, ?_, ?_, ?_⟩
    · rw [draw_mode, update_data_mode]; exact Pm
    · rw [draw_hold, update_data_hold]; exact Ph
    · rw [draw_screen, Us]; exact Ps
    · rw [draw_cycle, Uc, Pc]; push_cast; ring
    · rw [draw_interface_timer, update_data_timer, Pt]
      have hpos : 0 < s.display_timer - (j : Int) := by
        simp only [INFO_CYCLE_TICKS] at ht hjlt; omega
      rw [if_pos hpos]
      push_cast; ring

/-- One more idle tick after `idle_phase` has counted the cycle counter
up to the period: the toggle fires, flipping the screen and resetting the
cycle counter, with the mode and hold counter untouched. -/
theorem idle_phase_toggle (inputs : Nat → TickInput)
    (hp : ∀ n, (inputs n).pressed = false) (s : AppState)
    (hm : s.mode = MenuState.INFO) (hh : s.btn_hold_ticks = 0)
    (hc : s.cycle_tick = 0) (ht : INFO_CYCLE_TICKS + 1 ≤ s.display_timer) :
    (run inputs s (INFO_CYCLE_TICKS.toNat + 1)).mode = MenuState.INFO ∧
    (run inputs s (INFO_CYCLE_TICKS.toNat + 1)).btn_hold_ticks = 0 ∧
    (run inputs s (INFO_CYCLE_TICKS.toNat + 1)).screen =
      (if s.screen = InfoScreen.NETWORK then InfoScreen.PERFORMANCE
       else InfoScreen.NETWORK) ∧
    (run inputs s (INFO_CYCLE_TICKS.toNat + 1)).cycle_tick = 0 := by
  have hcast : ((INFO_CYCLE_TICKS.toNat : Nat) : Int) = INFO_CYCLE_TICKS := by
    simp [INFO_CYCLE_TICKS]
  obtain ⟨Pm, Ph, Ps, Pc, Pt⟩ :=
    idle_phase inputs hp s hm hh hc ht INFO_CYCLE_TICKS.toNat (le_of_eq hcast)
  have hex : (handle_input (inputs INFO_CYCLE_TICKS.toNat).pressed
      (run inputs s INFO_CYCLE_TICKS.toNat)).exited = false := by
    rw [hp _, handle_input_idle _ Ph]
  have hrun : run inputs s (INFO_CYCLE_TICKS.toNat + 1) =
      (tick (inputs INFO_CYCLE_TICKS.toNat)
        (run inputs s INFO_CYCLE_TICKS.toNat)).state := rfl
  rw [hrun, tick_state _ _ hex, hp _, handle_input_idle _ Ph]
  have htpos : 0 < (run inputs s INFO_CYCLE_TICKS.toNat).display_timer := by
    rw [Pt, hcast]; simp only [INFO_CYCLE_TICKS] at ht ⊢; omega
  have hcge : INFO_CYCLE_TICKS ≤
      (run inputs s INFO_CYCLE_TICKS.toNat).cycle_tick := by
    rw [Pc, hcast]
  obtain ⟨Us, Uc, _, _, _⟩ :=
    update_data_toggle (inputs INFO_CYCLE_TICKS.toNat).net
      (inputs INFO_CYCLE_TICKS.toNat).perf _ htpos Pm hcge
  refine ⟨?_, ?_, ?_, ?_⟩
  · rw [draw_mode, update_data_mode]; exact Pm
  · rw [draw_hold, update_data_hold]; exact Ph
  · rw [draw_screen, Us, Ps]
  · rw [draw_cycle, Uc]

/-! ### Runs with the button continuously held -/

/-- Tracing a held stretch of the loop from an idle INFO state: after `k`
pressed ticks the hold counter reads `k` and the mode is classified by
the two-threshold ladder, shutdown checked first. -/
theorem press_phase (inputs : Nat → TickInput)
    (hp : ∀ n, (inputs n).pressed = true) (s : AppState)
    (hm : s.mode = MenuState.INFO) (hh : s.btn_hold_ticks = 0) :
    ∀ k : Nat,
      (run inputs s k).btn_hold_ticks = (k : Int) ∧
      (run inputs s k).mode =
        (if (k : Int) ≥ SHUTDOWN_HOLD_TICKS then MenuState.SHUTDOWN_WAIT
         else if (k : Int) ≥ REBOOT_HOLD_TICKS then MenuState.REBOOT_WAIT
         else MenuState.INFO) := by
  intro k
  induction k with
  | zero =>
    constructor
    · simpa [run] using hh
    · simp only [run]
      rw [if_neg, if_neg]
      · exact hm
      · simp [REBOOT_HOLD_TICKS]
      · simp [SHUTDOWN_HOLD_TICKS]
  | succ k ih =>
    obtain ⟨Ph, Pm⟩ := ih
    have hex : (handle_input (inputs k).pressed (run inputs s k)).exited
        = false := by
      rw [hp k, handle_input_pressed]
    have hrun : run inputs s (k + 1) =
        (tick (inputs k) (run inputs s k)).state := rfl
    rw [hrun, tick_state _ _ hex, hp k, handle_input_pressed]
    constructor
    · rw [draw_hold, update_data_hold]
      show (run inputs s k).btn_hold_ticks + 1 = ((k + 1 : Nat) : Int)
      rw [Ph]; push_cast; ring
    · rw [draw_mode, update_data_mode]
      show (if (run inputs s k).btn_hold_ticks + 1 ≥ SHUTDOWN_HOLD_TICKS then
              MenuState.SHUTDOWN_WAIT
            else if (run inputs s k).btn_hold_ticks + 1 ≥ REBOOT_HOLD_TICKS then
              MenuState.REBOOT_WAIT
            else (run inputs s k).mode) = _
      rw [Ph, Pm]
      simp only [SHUTDOWN_HOLD_TICKS, REBOOT_HOLD_TICKS]
      by_cases h60 : (k : Int) + 1 ≥ 60
      · rw [if_pos h60, if_pos (by push_cast; omega)]
      · rw [if_neg h60, if_neg (show ¬ ((k + 1 : Nat) : Int) ≥ 60 by push_cast at h60 ⊢; omega)]
        by_cases h30 : (k : Int) + 1 ≥ 30
        · rw [if_pos h30, if_pos (by push_cast; omega)]
        · rw [if_neg h30, if_neg (show ¬ ((k + 1 : Nat) : Int) ≥ 30 by push_cast at h30 ⊢; omega)]
          rw [if_neg (by omega), if_neg (by omega)]

/-! ### The claims -/

/-- Claim C1, counterexample. Running the loop idle from the initial
state, the 21st tick both toggles the screen (NETWORK at tick 20,
PERFORMANCE at tick 21) and refreshes the cache of the newly active
screen in the same tick: `cache_perf` changes from its placeholder to the
fetched values at tick 21, and `stats_tick` ends that tick at 0, not at
its trigger value. The claim says the refresh fires only on the
immediately following tick. -/
theorem same_tick_refresh_cex :
    (run idleInputs initState 20).screen = InfoScreen.NETWORK ∧
    (run idleInputs initState 20).cache_perf = (0, 0, 0) ∧
    (run idleInputs initState 21).screen = InfoScreen.PERFORMANCE ∧
    (run idleInputs initState 21).cache_perf = (3.5, 42.0, 77.0) ∧
    (run idleInputs initState 21).stats_tick = 0 :=
  ⟨rfl, rfl, rfl, rfl, rfl⟩

/-- Claim C1 (amended): on every tick in which the Data Refresher toggles
the active screen (mode INFO, positive display timer, cycle counter at
the cycle period), the toggle writes the trigger value into `stats_tick`,
which makes the stats branch of the same `update_data` call fire: the
data refresh for the newly active screen happens on the toggle tick
itself, and the tick ends with `stats_tick = 0`. -/
theorem toggle_refreshes_same_tick (net : String × String)
    (perf : Float × Float × Float) (s : AppState)
    (ht : 0 < s.display_timer) (hm : s.mode = MenuState.INFO)
    (hc : INFO_CYCLE_TICKS ≤ s.cycle_tick) :
    (update_data net perf s).screen =
      (if s.screen = InfoScreen.NETWORK then InfoScreen.PERFORMANCE
       else InfoScreen.NETWORK) ∧
    (update_data net perf s).cycle_tick = 0 ∧
    (update_data net perf s).stats_tick = 0 ∧
    (s.screen = InfoScreen.NETWORK →
      (update_data net perf s).cache_perf = perf) ∧
    (s.screen = InfoScreen.PERFORMANCE →
      (update_data net perf s).cache_net = net) := by
  obtain ⟨h1, h2, h3, h4, h5⟩ := update_data_toggle net perf s ht hm hc
  exact ⟨h1, h2, h3, fun h => (h4 h).1, fun h => (h5 h).1⟩

/-- Witness for C1 at a concrete boundary state. -/
theorem toggle_refreshes_same_tick_witness :
    (update_data ("n", "1.1.1.1") (1, 2, 3) toggleState).stats_tick = 0 ∧
    (update_data ("n", "1.1.1.1") (1, 2, 3) toggleState).cache_perf
      = (1, 2, 3) := by
  have h := toggle_refreshes_same_tick ("n", "1.1.1.1") (1, 2, 3) toggleState
    (by decide) rfl (by decide)
  exact ⟨h.2.2.1, h.2.2.2.1 rfl⟩

/-- Claim C2, counterexample. A failing hostname lookup is not caught by
`get_network_info`: the exception propagates out of the fetch instead of
being replaced by a placeholder pair. -/
theorem network_fetch_raises_cex :
    get_network_info (Except.error "hostname failed")
      (Except.ok "1.2.3.4") = Except.error "hostname failed" := rfl

/-- Claim C2 (amended): only a failure of the ip lookup is caught
locally, and it is substituted by the placeholder string for the ip
component alone, the hostname being kept; a failure of the hostname
lookup is not caught and propagates out of the fetch. -/
theorem network_fetch_partial_fallback (host ip e : String) :
    get_network_info (Except.ok host) (Except.error e)
      = Except.ok (host, "No IP") ∧
    get_network_info (Except.ok host) (Except.ok ip)
      = Except.ok (host, ip) ∧
    get_network_info (Except.error e) (Except.ok ip)
      = Except.error e ∧
    get_network_info (Except.error e) (Except.error e)
      = Except.error e :=
  ⟨rfl, rfl, rfl, rfl⟩

/-- Claim C3, counterexample. The initial state does not have all tick
counters at zero: `stats_tick` starts at its trigger value (forcing a
refresh on the first tick), not at zero. -/
theorem init_stats_nonzero_cex :
    initState.stats_tick = STATS_UPDATE_TICKS ∧ initState.stats_tick ≠ 0 :=
  ⟨rfl, by decide⟩

/-- Claim C3 (amended): the initial shared state has mode INFO, the
NETWORK screen, the display timer at its full maximum, `btn_hold_ticks`
and `cycle_tick` at zero, `stats_tick` at its refresh trigger value (so
the first tick refreshes immediately), and placeholder values in both
caches. -/
theorem init_state_fields :
    initState.mode = MenuState.INFO ∧
    initState.screen = InfoScreen.NETWORK ∧
    initState.display_timer = SCREEN_TIMEOUT_TICKS ∧
    initState.btn_hold_ticks = 0 ∧
    initState.cycle_tick = 0 ∧
    initState.stats_tick = STATS_UPDATE_TICKS ∧
    initState.cache_net = ("Loading...", "...") ∧
    initState.cache_perf = (0, 0, 0) :=
  ⟨rfl, rfl, rfl, rfl, rfl, rfl, rfl, rfl⟩

/-- Claim C4, counterexample. Starting idle from the initial state (mode
INFO, display timer full, button up), after exactly `INFO_CYCLE_TICKS`
ticks the screen has not toggled at all: it is still NETWORK and the
cycle counter has climbed to the full period without ever resetting
(one increment per tick), while the display stayed on. One cycle period
therefore contains zero toggles, not exactly one. -/
theorem cycle_period_cex :
    (run idleInputs initState INFO_CYCLE_TICKS.toNat).screen
      = InfoScreen.NETWORK ∧
    (run idleInputs initState INFO_CYCLE_TICKS.toNat).cycle_tick
      = INFO_CYCLE_TICKS ∧
    (run idleInputs initState INFO_CYCLE_TICKS.toNat).display_timer
      = SCREEN_TIMEOUT_TICKS - INFO_CYCLE_TICKS :=
  ⟨rfl, rfl, rfl⟩

/-- Claim C4 (amended): while mode is INFO with the display timer
positive and the button unpressed, the active screen toggles exactly once
every `INFO_CYCLE_TICKS + 1` ticks: starting from a state with the cycle
counter freshly reset, the screen is unchanged at every tick up to and
including the cycle period, it flips on the tick after that, and the
resulting state starts the next period in the same shape (INFO, hold
counter zero, cycle counter zero). -/
theorem screen_toggle_period (inputs : Nat → TickInput)
    (hp : ∀ n, (inputs n).pressed = false) (s : AppState)
    (hm : s.mode = MenuState.INFO) (hh : s.btn_hold_ticks = 0)
    (hc : s.cycle_tick = 0) (ht : INFO_CYCLE_TICKS + 1 ≤ s.display_timer) :
    (∀ j : Nat, (j : Int) ≤ INFO_CYCLE_TICKS →
      (run inputs s j).screen = s.screen) ∧
    (run inputs s (INFO_CYCLE_TICKS.toNat + 1)).screen =
      (if s.screen = InfoScreen.NETWORK then InfoScreen.PERFORMANCE
       else InfoScreen.NETWORK) ∧
    (run inputs s (INFO_CYCLE_TICKS.toNat + 1)).mode = MenuState.INFO ∧
    (run inputs s (INFO_CYCLE_TICKS.toNat + 1)).btn_hold_ticks = 0 ∧
    (run inputs s (INFO_CYCLE_TICKS.toNat + 1)).cycle_tick = 0 := by
  obtain ⟨Tm, Th, Ts, Tc⟩ := idle_phase_toggle inputs hp s hm hh hc ht
  exact ⟨fun j hj => (idle_phase inputs hp s hm hh hc ht j hj).2.2.1,
    Ts, Tm, Th, Tc⟩

/-- Witness for C4 at the initial state under an idle input stream. -/
theorem screen_toggle_period_witness :
    (run idleInputs initState (INFO_CYCLE_TICKS.toNat + 1)).screen =
      (if initState.screen = InfoScreen.NETWORK then InfoScreen.PERFORMANCE
       else InfoScreen.NETWORK) ∧
    (run idleInputs initState (INFO_CYCLE_TICKS.toNat + 1)).cycle_tick
      = 0 := by
  have h := screen_toggle_period idleInputs (fun n => rfl) initState
    rfl rfl rfl (by decide)
  exact ⟨h.2.1, h.2.2.2.2⟩

/-- Claim C5: holding the button for `H` ticks from an idle INFO state
leaves the hold counter at `H` and classifies the mode by the
two-threshold ladder — shutdown-pending at or above the shutdown
threshold (this check runs first, so shutdown wins at high hold counts),
reboot-pending at or above the reboot threshold, otherwise still INFO. -/
theorem hold_ladder (inputs : Nat → TickInput)
    (hp : ∀ n, (inputs n).pressed = true) (s : AppState)
    (hm : s.mode = MenuState.INFO) (hh : s.btn_hold_ticks = 0) (H : Nat) :
    (run inputs s H).mode =
      (if (H : Int) ≥ SHUTDOWN_HOLD_TICKS then MenuState.SHUTDOWN_WAIT
       else if (H : Int) ≥ REBOOT_HOLD_TICKS then MenuState.REBOOT_WAIT
       else MenuState.INFO) ∧
    (run inputs s H).btn_hold_ticks = (H : Int) := by
  have h := press_phase inputs hp s hm hh H
  exact ⟨h.2, h.1⟩

/-- Witness for C5: sixty held ticks from the initial state reach
shutdown-pending. -/
theorem hold_ladder_witness :
    (run pressInputs initState 60).mode = MenuState.SHUTDOWN_WAIT ∧
    (run pressInputs initState 60).btn_hold_ticks = 60 := by
  have h := hold_ladder pressInputs (fun n => rfl) initState rfl rfl 60
  constructor
  · rw [h.1]; norm_num [SHUTDOWN_HOLD_TICKS]
  · rw [h.2]; norm_num

/-- Claim C6: a release (button up with a hold in progress) while
reboot-pending fires exactly the reboot action — never the shutdown
action — and exits the process; symmetrically, a release while
shutdown-pending fires exactly the shutdown action and exits. The single
`Option SysAction` of the call carries at most one action, so `some
SysAction.reboot` is one reboot invocation and no shutdown. -/
theorem release_pending_action (s : AppState) (hh : 0 < s.btn_hold_ticks) :
    (s.mode = MenuState.REBOOT_WAIT →
      (handle_input false s).action = some SysAction.reboot ∧
      (handle_input false s).exited = true) ∧
    (s.mode = MenuState.SHUTDOWN_WAIT →
      (handle_input false s).action = some SysAction.shutdown ∧
      (handle_input false s).exited = true) := by
  constructor <;> intro hm <;> simp [handle_input, hm, hh]

/-- Witness for C6 at concrete pending states. -/
theorem release_pending_action_witness :
    (handle_input false pendingRebootState).action = some SysAction.reboot ∧
    (handle_input false pendingShutdownState).action
      = some SysAction.shutdown := by
  have h1 := release_pending_action pendingRebootState (by decide)
  have h2 := release_pending_action pendingShutdownState (by decide)
  exact ⟨(h1.1 rfl).1, (h2.2 rfl).1⟩

/-- Claim C7: releasing after a short tap (mode still INFO) fires no
power action, does not exit, and resets the state to mode INFO, the
NETWORK screen, cycle counter zero and hold counter zero. -/
theorem release_tap_no_action (s : AppState) (hh : 0 < s.btn_hold_ticks)
    (hm : s.mode = MenuState.INFO) :
    (handle_input false s).action = none ∧
    (handle_input false s).exited = false ∧
    (handle_input false s).state.mode = MenuState.INFO ∧
    (handle_input false s).state.screen = InfoScreen.NETWORK ∧
    (handle_input false s).state.cycle_tick = 0 ∧
    (handle_input false s).state.btn_hold_ticks = 0 := by
  simp [handle_input, hm, hh]

/-- Witness for C7 at a concrete tap state. -/
theorem release_tap_no_action_witness :
    (handle_input false tapState).action = none ∧
    (handle_input false tapState).state.screen = InfoScreen.NETWORK ∧
    (handle_input false tapState).state.cycle_tick = 0 ∧
    (handle_input false tapState).state.btn_hold_ticks = 0 := by
  have h := release_tap_no_action tapState (by decide) rfl
  exact ⟨h.1, h.2.2.2.1, h.2.2.2.2.1, h.2.2.2.2.2⟩

/-- Claim C8: in every reachable state the display timer is non-negative;
the Renderer decrements it by exactly one precisely when it was positive
at the start of the tick, whatever branch was drawn; and the frame handed
to the sink (one is produced on every tick) is the blank screensaver
frame exactly when the timer had run out. -/
theorem renderer_timer_frame (s : AppState) (h : Reachable s) :
    0 ≤ s.display_timer ∧
    (draw_interface s).1.display_timer =
      (if 0 < s.display_timer then s.display_timer - 1
       else s.display_timer) ∧
    ((draw_interface s).2 = Frame.blank ↔ s.display_timer ≤ 0) :=
  ⟨(reachable_inv s h).1, draw_interface_timer s, draw_interface_blank s⟩

/-- Witness for C8 at the initial state. -/
theorem renderer_timer_frame_witness :
    0 ≤ initState.display_timer ∧
    (draw_interface initState).1.display_timer =
      (if 0 < initState.display_timer then initState.display_timer - 1
       else initState.display_timer) ∧
    ((draw_interface initState).2 = Frame.blank ↔
      initState.display_timer ≤ 0) :=
  renderer_timer_frame initState Reachable.init

/-- Claim C9: whenever the mode is not INFO or the display timer has run
out, `update_data` returns the state unchanged — no toggle, no counter
movement, no cache write. -/
theorem refresher_frozen (net : String × String)
    (perf : Float × Float × Float) (s : AppState)
    (h : s.mode ≠ MenuState.INFO ∨ s.display_timer ≤ 0) :
    update_data net perf s = s :=
  update_data_frozen net perf s h.symm

/-- Witness for C9 at a concrete hold-menu state. -/
theorem refresher_frozen_witness :
    update_data ("x", "y") (0, 0, 0) frozenState = frozenState :=
  refresher_frozen ("x", "y") (0, 0, 0) frozenState (Or.inl (by decide))

/-- Claim C10: in every state reachable from the initial state by any
sequence of non-exiting ticks, the cycle counter never exceeds the cycle
period constant and the stats counter never exceeds the stats-refresh
trigger constant. -/
theorem counters_bounded (s : AppState) (h : Reachable s) :
    s.cycle_tick ≤ INFO_CYCLE_TICKS ∧ s.stats_tick ≤ STATS_UPDATE_TICKS :=
  ⟨(reachable_inv s h).2.2.1, (reachable_inv s h).2.2.2.2⟩

/-- Witness for C10 one tick into a concrete run. -/
theorem counters_bounded_witness :
    (tick idleSample initState).state.cycle_tick ≤ INFO_CYCLE_TICKS ∧
    (tick idleSample initState).state.stats_tick ≤ STATS_UPDATE_TICKS :=
  counters_bounded (tick idleSample initState).state
    (Reachable.step initState idleSample Reachable.init rfl)

end InfoscreenModel
